import Mathlib

/-!
Shallow embedding of the OData query parser and SQL-fragment renderer
(`DataFilter`, `ParseURL`, `EvaluateQuery`, `parseFilter`, `parseOrderBy`,
`parseTop`, `parseSkip`, `parseQueryOption`, `getStructFieldData`).

Modelling conventions, stated once:

* Go strings are Lean `String`s (working representation: `List Char`).
* The singly linked `Filter`/`FilterNode` chain is modelled as a Lean list in
  head-to-tail order; the `Next` pointer is the list's cons structure and
  `Filter.Insert` is an append at the tail, exactly as the Go loop walks to
  the last node.  A `*Filter` value (possibly nil) is `Option (List FilterNode)`:
  `none` is the nil pointer, `some l` is a non-nil `Filter` whose `Head` chain
  is `l` (`some []` is a non-nil `Filter` with a nil `Head`).
* A Go function that can dereference a nil pointer (panic) returns `Option`;
  `none` marks the panic.
* Go's `regexp` package implements leftmost-first (Perl) matching.  The three
  patterns the source compiles are embedded as dedicated backtracking matchers
  over `List Char`: alternations are tried in list order, with fallback to the
  next alternative when the continuation of the clause fails, and quantifiers
  are greedy.  For these patterns greedy quantifier matching never needs to
  give characters back, because every token that can follow a quantified
  subpattern starts with a character the quantified class excludes.
* Go iterates maps in unspecified order.  Where the source builds regex
  alternations or performs replacements by ranging over a map, the embedding
  takes the iteration order as an explicit argument (the field map is a list
  of key/value pairs in iteration order).  The operator, conjunction and
  sort-direction tables are fixed maps whose distinct keys are never
  whitespace-containing nor mutually interacting, so their iteration order is
  irrelevant and the source's textual order is used.
* Scanning loops recurse on a fuel argument initialised to more than the
  input length; each step consumes at least one character, so the fuel is
  never exhausted (the fuel-out branch returns the everything-is-leftover
  result).  This keeps every definition structurally recursive and hence
  evaluable by `rfl`/`decide`.
-/

namespace OData

/-- The `$filter` query option key (constant block of the source). -/
def filter : String := "$filter"

/-- The `$orderby` query option key. -/
def orderBy : String := "$orderby"

/-- The `$top` query option key. -/
def top : String := "$top"

/-- The `$skip` query option key. -/
def skip : String := "$skip"

/-- The single-quote character, used by the `'[^']+'` value alternative. -/
def quoteCh : Char := Char.ofNat 39

/-- RE2's `\s` class: tab, newline, form feed, carriage return, space. -/
def reSpace (c : Char) : Bool :=
  c == Char.ofNat 9 || c == Char.ofNat 10 || c == Char.ofNat 12 ||
    c == Char.ofNat 13 || c == ' '

/-- Go's `unicode.IsSpace` restricted to ASCII (what `strings.TrimSpace`
trims): `\t \n \v \f \r` and space. -/
def goSpace (c : Char) : Bool :=
  c == Char.ofNat 9 || c == Char.ofNat 10 || c == Char.ofNat 11 ||
    c == Char.ofNat 12 || c == Char.ofNat 13 || c == ' '

/-- RE2's `\d`: a decimal digit. -/
def isDigitCh (c : Char) : Bool := '0' ≤ c && c ≤ '9'

/-- `strings.TrimSpace`. -/
def goTrim (s : String) : String :=
  String.mk (((s.data.dropWhile goSpace).reverse.dropWhile goSpace).reverse)

/-- Literal match: if `lit` is an initial run of `s`, return the rest. -/
def matchLit : List Char → List Char → Option (List Char)
  | [], s => some s
  | _ :: _, [] => none
  | l :: ls, c :: cs => if l == c then matchLit ls cs else none

/-- Leftmost-first alternation with backtracking: try each alternative as a
literal in list order; on a literal match run the continuation `k`, and if `k`
fails fall through to the next alternative (this is exactly how a
leftmost-first engine explores `(a1|a2|...)rest`). -/
def tryAlts {α : Type} (alts : List String) (s : List Char) (k : String → List Char → Option α) : Option α :=
  match alts with
  | [] => none
  | a :: rest =>
    match matchLit a.data s with
    | some r =>
      match k a r with
      | some v => some v
      | none => tryAlts rest s k
    | none => tryAlts rest s k

/-- `\s+`: at least one RE2 whitespace character, consumed greedily.  (The
tokens that follow `\s+` in the source patterns never start with whitespace,
so the greedy run is the only viable one and no give-back is needed.) -/
def wsPlus (s : List Char) : Option (List Char) :=
  match s with
  | c :: rest => if reSpace c then some (rest.dropWhile reSpace) else none
  | [] => none

/-- `strings.Join(list, "|")` produces the empty pattern for an empty list,
and an empty alternation matches the empty string; a non-empty list is the
alternation of its elements. -/
def altsOrEpsilon (alts : List String) : List String :=
  if alts.isEmpty then [""] else alts

/-- The value alternative `\d+|'[^']+'`: a maximal run of digits, or a
single-quoted non-empty literal with the quotes retained in the capture. -/
def matchValue (s : List Char) : Option (String × List Char) :=
  match s with
  | [] => none
  | c :: rest =>
    if isDigitCh c then
      some (String.mk ((c :: rest).takeWhile isDigitCh), (c :: rest).dropWhile isDigitCh)
    else if c == quoteCh then
      let inner := rest.takeWhile (fun x => !(x == quoteCh))
      if inner.isEmpty then none
      else
        match rest.dropWhile (fun x => !(x == quoteCh)) with
        | _ :: r2 => some (String.mk (quoteCh :: (inner ++ [quoteCh])), r2)
        | [] => none
    else none

/-- `(?P<conjunction>and|or)*`: a greedy star over the conjunction keywords;
the capture of a starred group is its last iteration (empty when the group
matched zero times), which is what `FindAllStringSubmatch` reports.  The two
keywords share no prefix, so their alternation order (map iteration order in
the source) cannot affect the result. -/
def conjStar : String → List Char → String × List Char
  | _, 'a' :: 'n' :: 'd' :: r => conjStar ("and") r
  | _, 'o' :: 'r' :: r => conjStar ("or") r
  | cap, s => (cap, s)

/-- The operator alternation of the source's `operMap`, in the map literal's
textual order.  The keys are whitespace-free and every use is followed by
`\s+`, so which permutation Go's map iteration produces cannot change which
alternative completes a match. -/
def opAlts : List String := ["eq", "ne", "gt", "lt", "lte", "gte"]

/-- The four captured groups of one clause of the `$filter` pattern. -/
structure RawClause where
  fieldTok : String
  opTok : String
  valTok : String
  conjTok : String
deriving DecidableEq, Repr

/-- One attempt of the compiled `$filter` clause pattern
`(?P<field>F1|...)\s+(?P<operator>eq|...)\s+(?P<value>\d+|'[^']+')\s*(?P<conjunction>and|or)*\s*`
at the head of `s`, with leftmost-first alternation and backtracking across
the field and operator alternations. -/
def matchClause (fieldAlts : List String) (s : List Char) : Option (RawClause × List Char) :=
  tryAlts (altsOrEpsilon fieldAlts) s fun f r0 =>
    match wsPlus r0 with
    | none => none
    | some r1 =>
      tryAlts opAlts r1 fun o r2 =>
        match wsPlus r2 with
        | none => none
        | some r3 =>
          match matchValue r3 with
          | none => none
          | some (v, r4) =>
            let r5 := r4.dropWhile reSpace
            let p := conjStar ("") r5
            some (⟨f, o, v, p.1⟩, p.2.dropWhile reSpace)

/-- The combined `ReplaceAllLiteralString`/`FindAllStringSubmatch` scan: walk
the input left to right, at each position try the clause pattern; a match is
removed (its captures recorded), a non-matching character is leftover.  Both
Go calls compile the same pattern, so they find the same matches; the scan
returns the submatches and the replacement residue at once.  Fuel decreases
every step and starts above the input length, so the fuel-out branch is
unreachable. -/
def scanQueryF (fieldAlts : List String) : Nat → List Char → List RawClause × List Char
  | 0, s => ([], s)
  | _ + 1, [] => ([], [])
  | n + 1, c :: rest =>
    match matchClause fieldAlts (c :: rest) with
    | some (raw, r) =>
      if r.length < rest.length + 1 then
        let p := scanQueryF fieldAlts n r
        (raw :: p.1, p.2)
      else
        let p := scanQueryF fieldAlts n rest
        (p.1, c :: p.2)
    | none =>
      let p := scanQueryF fieldAlts n rest
      (p.1, c :: p.2)

/-- Entry point of the clause scan with enough fuel. -/
def scanQuery (fieldAlts : List String) (s : List Char) : List RawClause × List Char :=
  scanQueryF fieldAlts (s.length + 1) s

/-- Find the first occurrence of the literal `key` in `s` and return what
follows it (the leftmost match of the anchored literal group). -/
def findOpt (key : List Char) : List Char → Option (List Char)
  | [] => none
  | c :: rest =>
    match matchLit key (c :: rest) with
    | some r => some r
    | none => findOpt key rest

/-- `parseQueryOption`: the leftmost match of `(?P<option>\OPT=)(?P<value>[^&$]*)`
returns the greedy `[^&$]*` capture; no match returns the empty string. -/
def parseQueryOption (query opt : String) : String :=
  match findOpt (opt.data ++ ['=']) query.data with
  | some r => String.mk (r.takeWhile (fun c => !(c == '&') && !(c == '$')))
  | none => ""

/-- One predicate of the filter chain (`FilterNode` of the source, minus the
`Next` pointer, which the enclosing list represents). -/
structure FilterNode where
  Field : String
  Operator : String
  Conjunction : String
  Value : String
deriving DecidableEq, Repr

/-- The `Filter` linked list, as the list of its nodes from `Head` onward. -/
abbrev Filter := List FilterNode

/-- `Filter.Insert` walks to the last node and appends, i.e. list append. -/
def Filter.Insert (f : Filter) (n : FilterNode) : Filter := f ++ [n]

/-- The field map (`fieldData` of the source) together with its iteration
order: a list of (public field name, storage column name) pairs. -/
abbrev fieldData := List (String × String)

/-- Go map read with the zero value `""` for a missing key. -/
def mapGet (m : fieldData) (k : String) : String :=
  match m.find? (fun kv => kv.1 == k) with
  | some kv => kv.2
  | none => ""

/-- `operMap` of the source. -/
def operPairs : fieldData :=
  [("eq", "="), ("ne", "!="), ("gt", ">"), ("lt", "<"), ("lte", "<="), ("gte", ">=")]

/-- `conjMap` of the source. -/
def conjPairs : fieldData := [("and", "AND"), ("or", "OR")]

/-- The field alternation: `for k, v := range fieldMap` appends the key then
the value, in iteration order. -/
def fieldAlternatives (fm : fieldData) : List String :=
  fm.foldr (fun kv acc => kv.1 :: kv.2 :: acc) []

/-- Error classification of the source: the schema-shape error of
`getStructFieldData`, errors wrapping `ErrInvalidQuery` (tagged with the
option whose pattern failed), and the `strconv` errors wrapped by
`parseTop`/`parseSkip`. -/
inductive Err where
  | schemaShape (kind : String)
  | invalidQuery (opt : String)
  | invalidNumber (opt : String)
deriving DecidableEq, Repr

/-- Build a `FilterNode` from the four captures: field and conjunction are
translated through the maps (missing keys give Go's zero value `""`),
operator through `operMap`, value copied verbatim. -/
def toNode (fm : fieldData) (r : RawClause) : FilterNode :=
  { Field := mapGet fm r.fieldTok
    Operator := mapGet operPairs r.opTok
    Conjunction := mapGet conjPairs r.conjTok
    Value := r.valTok }

/-- `parseFilter`: extract the `$filter` value (empty means a nil `*Filter`),
validate that removing every clause match leaves only whitespace, then build
the chain by `Insert`ing one node per match in scan order. -/
def parseFilter (url : String) (fm : fieldData) : Except Err (Option Filter) :=
  let query := parseQueryOption url filter
  if query = "" then Except.ok none
  else
    let p := scanQuery (fieldAlternatives fm) query.data
    if goTrim (String.mk p.2) ≠ "" then Except.error (Err.invalidQuery filter)
    else Except.ok (some (p.1.foldl (fun fl raw => Filter.Insert fl (toNode fm raw)) []))

/-- Equality of parser results is decidable. -/
instance {ε α : Type} [DecidableEq ε] [DecidableEq α] : DecidableEq (Except ε α) := fun x y =>
  match x, y with
  | Except.ok a, Except.ok b =>
    if h : a = b then isTrue (by rw [h]) else isFalse (by intro hh; cases hh; exact h rfl)
  | Except.ok _, Except.error _ => isFalse (by intro h; cases h)
  | Except.error _, Except.ok _ => isFalse (by intro h; cases h)
  | Except.error a, Except.error b =>
    if h : a = b then isTrue (by rw [h]) else isFalse (by intro hh; cases hh; exact h rfl)

/-- Digit run to number, for `strconv.Atoi`. -/
def digitsToNat (l : List Char) : Nat :=
  l.foldl (fun a c => a * 10 + (c.toNat - 48)) 0

/-- `strconv.Atoi`: an optional sign followed by at least one digit, rejected
when empty, when any non-digit is present, or when the value overflows a
64-bit `int`. -/
def goAtoi (s : String) : Option Int :=
  match s.data with
  | [] => none
  | c :: cs =>
    let sgn : Int := if c == '-' then -1 else 1
    let ds := if c == '-' then cs else if c == '+' then cs else c :: cs
    if !ds.isEmpty && ds.all isDigitCh then
      let n : Int := sgn * Int.ofNat (digitsToNat ds)
      if -(2 ^ 63) ≤ n ∧ n ≤ 2 ^ 63 - 1 then some n else none
    else none

/-- Spec-side notion used by the pagination claims, following the spec's
words: a base-10 integer literal is an optional sign followed by one or more
decimal digits. -/
def specBase10Literal (s : String) : Bool :=
  match s.data with
  | [] => false
  | c :: cs =>
    let ds := if c == '-' then cs else if c == '+' then cs else c :: cs
    !ds.isEmpty && ds.all isDigitCh

/-- `parseSkip`: absent or empty `$skip` is no value; otherwise `Atoi`, whose
failure is wrapped into the skip parsing error. -/
def parseSkip (url : String) : Except Err (Option Int) :=
  let query := parseQueryOption url skip
  if query = "" then Except.ok none
  else
    match goAtoi query with
    | some v => Except.ok (some v)
    | none => Except.error (Err.invalidNumber skip)

/-- `parseTop`: absent or empty `$top` is no value; otherwise `Atoi`, whose
failure is wrapped into the top parsing error. -/
def parseTop (url : String) : Except Err (Option Int) :=
  let query := parseQueryOption url top
  if query = "" then Except.ok none
  else
    match goAtoi query with
    | some v => Except.ok (some v)
    | none => Except.error (Err.invalidNumber top)

/-- The direction alternation `(ASC|asc|DESC|desc|ASC|ASC|DESC|DESC)` that
`sortList` produces (value then key per entry); no two distinct alternatives
share a prefix, so the map iteration order is irrelevant and duplicates are
redundant.  Returns the rest after one direction keyword. -/
def matchDir : List Char → Option (List Char)
  | 'A' :: 'S' :: 'C' :: r => some r
  | 'a' :: 's' :: 'c' :: r => some r
  | 'D' :: 'E' :: 'S' :: 'C' :: r => some r
  | 'd' :: 'e' :: 's' :: 'c' :: r => some r
  | _ => none

/-- `(\s(ASC|...))*`: greedily repeat one whitespace character followed by a
direction keyword.  Fuel as in `scanQueryF`. -/
def dirStarF : Nat → List Char → List Char
  | 0, s => s
  | n + 1, s =>
    match s with
    | c :: rest =>
      if reSpace c then
        match matchDir rest with
        | some r => dirStarF n r
        | none => s
      else s
    | [] => []

/-- One attempt of the `$orderby` clause pattern `(F1|...)(\s(dirs))*,*` at
the head of `s`: the first field alternative that matches wins (everything
after the field alternation is nullable, so a leftmost-first engine never
revisits the choice), then greedy direction repetitions, then greedy commas. -/
def matchOrderClause (fieldAlts : List String) (s : List Char) : Option (List Char) :=
  tryAlts (altsOrEpsilon fieldAlts) s fun _ r =>
    some ((dirStarF (r.length + 1) r).dropWhile (fun c => c == ','))

/-- The `ReplaceAllLiteralString` scan for the `$orderby` pattern: returns the
residue after removing every match.  A match that consumes nothing (possible
only with an empty field alternation) leaves the current character in place,
as replacing an empty match does. -/
def orderScanF (fieldAlts : List String) : Nat → List Char → List Char
  | 0, s => s
  | _ + 1, [] => []
  | n + 1, c :: rest =>
    match matchOrderClause fieldAlts (c :: rest) with
    | some r =>
      if r.length < rest.length + 1 then orderScanF fieldAlts n r
      else c :: orderScanF fieldAlts n rest
    | none => c :: orderScanF fieldAlts n rest

/-- `strings.Replace(s, old, new, -1)`: replace every non-overlapping
occurrence, scanning left to right.  The source only calls this with
non-empty `old` (map keys and direction keywords); an empty `old` leaves the
character in place here. -/
def replaceAllF (old new : List Char) : Nat → List Char → List Char
  | 0, s => s
  | _ + 1, [] => []
  | n + 1, c :: rest =>
    match matchLit old (c :: rest) with
    | some r =>
      if r.length < rest.length + 1 then new ++ replaceAllF old new n r
      else c :: replaceAllF old new n rest
    | none => c :: replaceAllF old new n rest

/-- String-level `strings.Replace(s, old, new, -1)`. -/
def replaceAll (s old new : String) : String :=
  String.mk (replaceAllF old.data new.data (s.data.length + 1) s.data)

/-- `sortMap` of the source, in the map literal's textual order.  The two
non-identity replacements rewrite disjoint keywords and the two identity
replacements change nothing, so the iteration order cannot matter. -/
def sortPairs : fieldData :=
  [("asc", "ASC"), ("desc", "DESC"), ("ASC", "ASC"), ("DESC", "DESC")]

/-- `parseOrderBy`: extract the `$orderby` value (empty means no clause),
validate by whole-string removal of the order grammar, then substitute every
field name by its column and every direction keyword by its canonical form,
in iteration order. -/
def parseOrderBy (url : String) (fm : fieldData) : Except Err (Option String) :=
  let query := parseQueryOption url orderBy
  if query = "" then Except.ok none
  else
    let leftover := orderScanF (fieldAlternatives fm) (query.data.length + 1) query.data
    if goTrim (String.mk leftover) ≠ "" then Except.error (Err.invalidQuery orderBy)
    else
      let q1 := fm.foldl (fun acc kv => replaceAll acc kv.1 kv.2) query
      Except.ok (some (sortPairs.foldl (fun acc kv => replaceAll acc kv.1 kv.2) q1))

mutual

/-- A reflected Go value, as far as `getStructFieldData` inspects it: either
a struct with its ordered fields (name, `sql` tag value, field value) or a
value of any other kind (the kind's name kept for the error message).
Pointer indirection (`reflect.Indirect`) is not exercised by the claims and
is omitted. -/
inductive GoValue where
  | structV (fields : GoFields)
  | otherV (kind : String)

/-- The ordered field list of a reflected struct. -/
inductive GoFields where
  | nil
  | cons (name tag : String) (v : GoValue) (rest : GoFields)

end

/-- The unexported-field test of the source: the first byte of the name,
compared as a one-byte string, lies between `a` and `z`.  (Go would panic on
an empty name; struct field names are never empty.) -/
def lowerFirst (s : String) : Bool :=
  match s.data with
  | c :: _ => 'a' ≤ c && c ≤ 'z'
  | [] => false

/-- Go map assignment `m[k] = v`: overwrite an existing key, else add. -/
def assocSet : fieldData → String → String → fieldData
  | [], k, v => [(k, v)]
  | (k0, v0) :: rest, k, v =>
    if k0 == k then (k0, v) :: rest else (k0, v0) :: assocSet rest k v

mutual

/-- `getStructFieldData`: reject a non-struct root, else walk the fields in
order, skipping unexported names and empty tags, recording `name → tag`, and
recursively merging nested struct fields (nested entries overwrite). -/
def getStructFieldData : GoValue → Except Err fieldData
  | GoValue.structV fs => goFields fs []
  | GoValue.otherV kind => Except.error (Err.schemaShape kind)

/-- The field loop of `getStructFieldData`, threading the map being built. -/
def goFields : GoFields → fieldData → Except Err fieldData
  | GoFields.nil, res => Except.ok res
  | GoFields.cons name tag v rest, res =>
    if lowerFirst name then goFields rest res
    else if tag = "" then goFields rest res
    else
      let res1 := assocSet res name tag
      match v with
      | GoValue.structV fsNested =>
        match getStructFieldData (GoValue.structV fsNested) with
        | Except.error e => Except.error e
        | Except.ok nested =>
          goFields rest (nested.foldl (fun acc kv => assocSet acc kv.1 kv.2) res1)
      | GoValue.otherV _ => goFields rest res1

end

/-- The aggregate parse result.  `Filter` is the possibly-nil `*Filter`,
`OrderBy`/`Top`/`Skip` are the possibly-nil pointers. -/
structure DataFilter where
  Filter : Option Filter
  OrderBy : Option String
  Top : Option Int
  Skip : Option Int
deriving DecidableEq, Repr

/-- The all-nil `DataFilter` a caller starts from. -/
def dfEmpty : DataFilter := ⟨none, none, none, none⟩

/-- The field map `ParseURL` actually hands to the parsers: line 74 of the
source reassigns `err` before the error of `getStructFieldData` is ever
checked, so a failed schema inspection silently degrades to the nil map. -/
def dataOf (src : GoValue) : fieldData :=
  match getStructFieldData src with
  | Except.ok d => d
  | Except.error _ => []

/-- `(*DataFilter).ParseURL`: run the four option parsers on the (possibly
silently nil) field map; return the first parser error with the receiver
unchanged, or assign all four fields.  The pair is (returned error, receiver
after the call). -/
def ParseURL (f : DataFilter) (url : String) (src : GoValue) : Option Err × DataFilter :=
  let data := dataOf src
  match parseFilter url data with
  | Except.error e => (some e, f)
  | Except.ok fil =>
    match parseOrderBy url data with
    | Except.error e => (some e, f)
    | Except.ok ob =>
      match parseTop url with
      | Except.error e => (some e, f)
      | Except.ok t =>
        match parseSkip url with
        | Except.error e => (some e, f)
        | Except.ok s => (none, { Filter := fil, OrderBy := ob, Top := t, Skip := s })

/-- The error of the first failing option parser, in the order the source
invokes them.  (The schema-shape error is not among them: it is discarded.) -/
def firstParserError (url : String) (d : fieldData) : Option Err :=
  match parseFilter url d with
  | Except.error e => some e
  | Except.ok _ =>
    match parseOrderBy url d with
    | Except.error e => some e
    | Except.ok _ =>
      match parseTop url with
      | Except.error e => some e
      | Except.ok _ =>
        match parseSkip url with
        | Except.error e => some e
        | Except.ok _ => none

/-- The per-node renderer `eval`: `fmt.Sprintf("%v%v%v %v ", ...)`, i.e.
field, operator and value concatenated, a space, the conjunction, a space. -/
def evalNode (n : FilterNode) : String :=
  n.Field ++ n.Operator ++ n.Value ++ " " ++ n.Conjunction ++ " "

/-- `(*DataFilter).EvaluateQuery`: start from `"WHERE "`, walk the chain
appending `eval` of every node, then append the optional clauses in the
fixed order ORDER BY, OFFSET, LIMIT.  A nil `Filter` (`none`) dereferences a
nil pointer at `f.Filter.Head`, and a non-nil `Filter` with a nil `Head`
(`some []`) dereferences a nil `node` at `node.Next`; both panics are `none`. -/
def EvaluateQuery (f : DataFilter) : Option String :=
  match f.Filter with
  | none => none
  | some [] => none
  | some (n :: ns) =>
    let base := (n :: ns).foldl (fun q nd => q ++ evalNode nd) "WHERE "
    let q1 :=
      match f.OrderBy with
      | none => base
      | some ob => base ++ "\nORDER BY " ++ ob
    let q2 :=
      match f.Skip with
      | none => q1
      | some k => q1 ++ "\nOFFSET " ++ toString k
    let q3 :=
      match f.Top with
      | none => q2
      | some t => q2 ++ "\nLIMIT " ++ toString t
    some q3

/-! Concrete inputs used by the claims. -/

/-- A single-quote as a string, for building query texts. -/
def sq : String := String.mk [quoteCh]

/-- The quoted literal of the running example. -/
def thrillerLit : String := sq ++ "Thriller" ++ sq

/-- A query string containing none of the four options. -/
def urlNone : String := ""

/-- The `Book` struct of the repository's `main.go`, the example schema:
six exported fields with `sql` tags and `CreatedAt` without a tag (a struct
field, but skipped before the nested recursion because its tag is empty). -/
def bookFields : GoFields :=
  GoFields.cons ("ID") ("id") (GoValue.otherV ("string"))
    (GoFields.cons ("AuthorID") ("author_id") (GoValue.otherV ("string"))
      (GoFields.cons ("Title") ("title") (GoValue.otherV ("string"))
        (GoFields.cons ("Genre") ("genre") (GoValue.otherV ("string"))
          (GoFields.cons ("Rate") ("rate") (GoValue.otherV ("int"))
            (GoFields.cons ("Size") ("size") (GoValue.otherV ("int"))
              (GoFields.cons ("CreatedAt") ("") (GoValue.structV GoFields.nil)
                GoFields.nil))))))

/-- The example schema value. -/
def bookSchema : GoValue := GoValue.structV bookFields

/-- A schema argument that is not record-shaped. -/
def intSchema : GoValue := GoValue.otherV ("int")

/-- A schema whose field map is exactly Rate:rate, Genre:genre, Title:title. -/
def exampleSchema : GoValue :=
  GoValue.structV
    (GoFields.cons ("Rate") ("rate") (GoValue.otherV ("int"))
      (GoFields.cons ("Genre") ("genre") (GoValue.otherV ("string"))
        (GoFields.cons ("Title") ("title") (GoValue.otherV ("string")) GoFields.nil)))

/-- The field map of `exampleSchema`, in declaration order. -/
def exampleEntries : fieldData := [("Rate", "rate"), ("Genre", "genre"), ("Title", "title")]

/-- The round-trip query of the spec's testable-properties section. -/
def exampleUrl : String :=
  "$filter=Rate lt 100 and Genre eq " ++ thrillerLit ++
    "&$orderby=Title desc&$top=100&$skip=10"

/-- The text the round-trip is claimed to render (one space between the last
predicate and the newline). -/
def specRoundTrip : String :=
  "WHERE rate<100 AND genre=" ++ thrillerLit ++
    " \nORDER BY title DESC\nOFFSET 10\nLIMIT 100"

/-- The text the code actually renders: the last node's empty conjunction
still sits between the two spaces of the `"%v%v%v %v "` format, so two
spaces precede the newline. -/
def actualRoundTrip : String :=
  "WHERE rate<100 AND genre=" ++ thrillerLit ++
    "  \nORDER BY title DESC\nOFFSET 10\nLIMIT 100"

/-- A field map with a proper-prefix collision, in one iteration order. -/
def rlEntries : fieldData := [("Rate", "rate"), ("RateLimit", "rate_limit")]

/-- The same field map in the other iteration order. -/
def rlEntriesRev : fieldData := [("RateLimit", "rate_limit"), ("Rate", "rate")]

/-- A query referencing the longer of the two colliding names. -/
def rlUrl : String := "$filter=RateLimit gt 5"

/-- A one-field map. -/
def rateOnly : fieldData := [("Rate", "rate")]

/-- A `$filter` with a trailing conjunction after the last clause. -/
def trailUrl : String := "$filter=Rate lt 100 and"

/-- A `$filter` whose two clauses are not joined by any conjunction. -/
def unjoinedUrl : String := "$filter=Rate lt 100 Genre eq " ++ thrillerLit

/-- A two-field map for the unjoined-clauses query. -/
def rateGenreEntries : fieldData := [("Rate", "rate"), ("Genre", "genre")]

/-- A query whose text is ambiguous against the adversarial map below. -/
def overlapUrl : String := "$filter=x eq 5 and x eq 5"

/-- An adversarial field map (a column name that embeds keyword text), one
iteration order: the whole query can match as a single clause whose field
token is the long column name. -/
def overlapA : fieldData := [("X", "x"), ("Y", "x eq 5 and x")]

/-- The same adversarial map in the other iteration order. -/
def overlapB : fieldData := [("Y", "x eq 5 and x"), ("X", "x")]

/-- A `$filter` whose field token is the storage column, not the public name. -/
def colUrl : String := "$filter=rate lt 100"

/-- A query with a non-numeric `$top` value. -/
def topAbcUrl : String := "$top=abc"

/-- One non-canonical iteration order of `exampleEntries`, for the C7 witness. -/
def exampleEntriesRot : fieldData := [("Title", "title"), ("Rate", "rate"), ("Genre", "genre")]

/-! Theorems settling the claims. -/

/-- Helper for the pagination claims: a string that is not a base-10 integer
literal (optional sign, then at least one digit) is rejected by `Atoi`;
`Atoi`'s validity test is the literal shape plus a range check, so failing
the shape forces the error. -/
theorem goAtoi_none_of_not_literal (s : String) (h : specBase10Literal s = false) :
    goAtoi s = none := by
  unfold goAtoi
  unfold specBase10Literal at h
  split
  · rfl
  · rename_i c cs hd
    rw [hd] at h
    simp only at h
    simp only [h]
    rfl

/-- Claim C1 (code bug): parsing a query with none of the four options does
yield the all-absent `DataFilter`, but rendering it does not produce the
empty string — `EvaluateQuery` dereferences the nil `Filter` pointer at
`f.Filter.Head` (and would in any case begin with an unconditional
`"WHERE "`), so the claimed no-`WHERE`, empty-string rendering never
happens. -/
theorem C1_absent_filter_render_panics :
    ParseURL dfEmpty urlNone bookSchema = (none, dfEmpty) ∧
    EvaluateQuery dfEmpty = none :=
  ⟨by rfl, by rfl⟩

/-- Claim C2 (code bug): a non-record schema does make `getStructFieldData`
fail, but `ParseURL` overwrites `err` on line 74 before ever checking it, so
the schema-shape error is discarded: parsing an option-free query against an
`int` schema returns no error and a fully populated (all-absent)
`DataFilter` instead of the claimed `SchemaError`. -/
theorem C2_schema_error_discarded :
    getStructFieldData intSchema = Except.error (Err.schemaShape ("int")) ∧
    ParseURL dfEmpty urlNone intSchema = (none, dfEmpty) :=
  ⟨by rfl, by rfl⟩

/-- Claim C3, counterexample: the field alternation is built by appending
key and column in map-iteration order and is not sorted by descending
length — in the iteration order that lists `Rate` before `RateLimit`, the
shorter name precedes the longer one in the pattern. -/
theorem C3_alternation_not_length_sorted :
    fieldAlternatives rlEntries = ["Rate", "rate", "RateLimit", "rate_limit"] ∧
    ¬ List.Sorted (fun a b : String => b.length ≤ a.length) (fieldAlternatives rlEntries) :=
  ⟨by rfl, by decide⟩

/-- Claim C3 as amended: for the prefix-colliding map, `RateLimit gt 5`
parses to the longer field's storage column under both map-iteration orders,
not because the pattern tries longer names first (it is unsorted), but
because a leftmost-first engine abandons the shorter alternative when the
mandatory following whitespace fails to match and field names contain no
whitespace. -/
theorem C3_longer_field_name_wins :
    parseFilter rlUrl rlEntries = Except.ok (some [⟨"rate_limit", ">", "", "5"⟩]) ∧
    parseFilter rlUrl rlEntriesRev = Except.ok (some [⟨"rate_limit", ">", "", "5"⟩]) :=
  ⟨by rfl, by rfl⟩

/-- Claim C4 (code bug): a `$filter` value with a trailing conjunction after
the last clause is claimed to be rejected with `InvalidQueryError`, but the
clause pattern ends in `(?P<conjunction>and|or)*\s*`, so `Rate lt 100 and`
is consumed entirely by one clause match: validation passes and parsing
succeeds, producing a single node that carries the dangling `AND`. -/
theorem C4_trailing_conjunction_accepted :
    parseFilter trailUrl rateOnly = Except.ok (some [⟨"rate", "<", "AND", "100"⟩]) := by
  rfl

/-- Claim C5, counterexample: the claimed round-trip text (a single space
between the last predicate and the newline) is not what the code renders. -/
theorem C5_render_differs_from_claimed :
    EvaluateQuery (ParseURL dfEmpty exampleUrl exampleSchema).2 ≠ some specRoundTrip := by
  decide

/-- Claim C5 as amended: parsing the round-trip query against the example
schema succeeds and rendering yields exactly the claimed text except that
two spaces precede the newline after the last predicate — `eval` prints
field, operator, value, a space, the (empty) conjunction, and another
space, so the last node always contributes two trailing spaces. -/
theorem C5_render_exact :
    (ParseURL dfEmpty exampleUrl exampleSchema).1 = none ∧
    EvaluateQuery (ParseURL dfEmpty exampleUrl exampleSchema).2 = some actualRoundTrip :=
  ⟨by rfl, by rfl⟩

/-- Claim C6 (code bug): the chain invariant — every node but the last
carries a conjunction — does not hold of every successfully parsed
`$filter`: two clauses not joined by any conjunction pass whole-string
validation (each clause match simply captures an empty conjunction), so a
non-last node with an empty `Conjunction` is produced. -/
theorem C6_unjoined_clauses_accepted :
    parseFilter unjoinedUrl rateGenreEntries =
      Except.ok (some [⟨"rate", "<", "", "100"⟩, ⟨"genre", "=", "", thrillerLit⟩]) := by
  rfl

/-- Claim C7, counterexample: parsing is not independent of map iteration
order.  For a field map whose column name embeds operator/conjunction text,
the two iteration orders of the same map parse the same query to different
filter chains (two clauses versus one clause whose field token is the long
column name). -/
theorem C7_iteration_order_changes_result :
    overlapA.Perm overlapB ∧
    parseFilter overlapUrl overlapA ≠ parseFilter overlapUrl overlapB := by
  constructor
  · decide
  · decide

/-- Claim C7 as amended: parsing is a pure function of the query text, the
schema and the map iteration order; for the example field map (no token of
which overlaps another token or contains whitespace) the result is the same
under every iteration order of the map, so run-to-run nondeterminism is
invisible there — but not in general (see the counterexample). -/
theorem C7_example_map_iteration_order_irrelevant (p : fieldData)
    (hp : p.Perm exampleEntries) :
    parseFilter exampleUrl p = parseFilter exampleUrl exampleEntries := by
  have h3 : p.length = 3 := hp.length_eq
  match p, hp, h3 with
  | [x, y, z], hp, _ =>
    have hnd : ([x, y, z] : fieldData).Nodup := hp.nodup_iff.mpr (by decide)
    simp only [List.nodup_cons, List.mem_cons, List.mem_singleton, List.not_mem_nil, or_false,
      List.nodup_nil, and_true, not_or] at hnd
    obtain ⟨⟨hxy, hxz⟩, hyz⟩ := hnd
    have hx : x ∈ exampleEntries := hp.subset (by simp)
    have hy : y ∈ exampleEntries := hp.subset (by simp)
    have hz : z ∈ exampleEntries := hp.subset (by simp)
    simp only [exampleEntries, List.mem_cons, List.mem_singleton, List.not_mem_nil,
      or_false] at hx hy hz
    rcases hx with rfl | rfl | rfl <;> rcases hy with rfl | rfl | rfl <;>
      rcases hz with rfl | rfl | rfl <;>
      first
        | exact absurd rfl hxy
        | exact absurd rfl hxz
        | exact absurd rfl hyz.1
        | decide

/-- Witness for C7's amended theorem at a concrete non-canonical order. -/
theorem C7_example_map_iteration_order_irrelevant_witness :
    parseFilter exampleUrl exampleEntriesRot = parseFilter exampleUrl exampleEntries :=
  C7_example_map_iteration_order_irrelevant exampleEntriesRot (by decide)

/-- Claim C8 (confirmed): for each of `$top` and `$skip` independently, an
absent key or empty value parses to no value and no error, while a present
value that is not a base-10 integer literal is rejected with the
option's number-parsing error. -/
theorem C8_pagination_parsers (url : String) :
    (parseQueryOption url top = "" → parseTop url = Except.ok none)
  ∧ (parseQueryOption url top ≠ "" → specBase10Literal (parseQueryOption url top) = false →
      parseTop url = Except.error (Err.invalidNumber top))
  ∧ (parseQueryOption url skip = "" → parseSkip url = Except.ok none)
  ∧ (parseQueryOption url skip ≠ "" → specBase10Literal (parseQueryOption url skip) = false →
      parseSkip url = Except.error (Err.invalidNumber skip)) := by
  refine ⟨?_, ?_, ?_, ?_⟩
  · intro h
    unfold parseTop
    simp only [h, if_pos]
  · intro h1 h2
    unfold parseTop
    rw [if_neg h1, goAtoi_none_of_not_literal _ h2]
  · intro h
    unfold parseSkip
    simp only [h, if_pos]
  · intro h1 h2
    unfold parseSkip
    rw [if_neg h1, goAtoi_none_of_not_literal _ h2]

/-- Witness for C8 at `$top=abc`: the malformed top value errors while the
absent skip value parses to no value. -/
theorem C8_pagination_parsers_witness :
    parseTop topAbcUrl = Except.error (Err.invalidNumber top) ∧
    parseSkip topAbcUrl = Except.ok none :=
  ⟨(C8_pagination_parsers topAbcUrl).2.1 (by decide) (by decide),
   (C8_pagination_parsers topAbcUrl).2.2.1 (by rfl)⟩

/-- Claim C9, counterexample: the returned error is not always the first
error encountered.  Against a non-record schema and `$top=abc`, the
schema-shape error is raised first (and then silently discarded, see C2), so
parsing returns the later `$top` error. -/
theorem C9_first_encountered_error_not_returned :
    getStructFieldData intSchema = Except.error (Err.schemaShape ("int")) ∧
    ParseURL dfEmpty topAbcUrl intSchema = (some (Err.invalidNumber top), dfEmpty) :=
  ⟨by rfl, by rfl⟩

/-- Claim C9 as amended: whenever `ParseURL` returns an error, the receiver
`DataFilter` is left exactly as it was (no partial result), and the returned
error is that of the first failing parser among `$filter`, `$orderby`,
`$top`, `$skip` in invocation order — the discarded schema-shape error is
never among the candidates. -/
theorem C9_error_atomicity (f : DataFilter) (url : String) (src : GoValue) (e : Err)
    (h : (ParseURL f url src).1 = some e) :
    (ParseURL f url src).2 = f ∧ firstParserError url (dataOf src) = some e := by
  unfold ParseURL at h ⊢
  unfold firstParserError
  rcases h1 : parseFilter url (dataOf src) with e1 | fil <;> simp only [h1] at h ⊢
  · exact ⟨trivial, h⟩
  · rcases h2 : parseOrderBy url (dataOf src) with e2 | ob <;> simp only [h2] at h ⊢
    · exact ⟨trivial, h⟩
    · rcases h3 : parseTop url with e3 | t <;> simp only [h3] at h ⊢
      · exact ⟨trivial, h⟩
      · rcases h4 : parseSkip url with e4 | sk <;> simp only [h4] at h ⊢
        · exact ⟨trivial, h⟩
        · simp at h

/-- Witness for C9's amended theorem: a failing `$top` against the Book
schema leaves the receiver untouched and surfaces as the first (and only)
parser error. -/
theorem C9_error_atomicity_witness :
    (ParseURL dfEmpty topAbcUrl bookSchema).2 = dfEmpty ∧
    firstParserError topAbcUrl (dataOf bookSchema) = some (Err.invalidNumber top) :=
  C9_error_atomicity dfEmpty topAbcUrl bookSchema (Err.invalidNumber top) (by rfl)

/-- Claim C10 (confirmed): the alternation lists column names alongside
public field names, so `rate lt 100` against the map Rate:rate passes
whole-string validation and parses; the field capture `rate` is not a key of
the map, so the Go map read yields the zero value and the node's `Field` is
the empty string. -/
theorem C10_column_token_empty_field :
    parseFilter colUrl rateOnly = Except.ok (some [⟨"", "<", "", "100"⟩]) := by
  rfl

end OData
